import Mathlib

/-!
Verification development for the QPPF_V1 trading system.

This file gives a shallow embedding, over exact rational arithmetic, of the
three core components of the repository:

* `GEXCalculator` (gex-calculator.ts): Black-Scholes unit gamma, per-contract
  gamma exposure, the aggregate GEX profile and the interpolated Zero Gamma
  Level;
* the signal scorer of `QPPFAlgorithm` (qppf-algorithm.ts, GEX-aware variant):
  `calculateConfidence` and `calculateDirection`;
* `RiskManager` (risk-manager.ts): base position sizing, risk multipliers,
  portfolio limits, risk score and the final trade assessment.

Modelling conventions:

* JavaScript `number` is modelled by `ℚ`; the source's floating-point
  tolerance statements become exact rational identities.  Division by zero in
  `ℚ` yields `0`, which we only rely on where the claim's hypotheses rule the
  case out or where the result is unaffected.
* The transcendental functions `Math.exp`, `Math.log`, `Math.sqrt` and the
  constant `Math.PI` have no exact rational counterpart; they are abstracted
  into a `RealFuns` record of rational-valued functions, and every theorem
  about gamma quantifies over all instantiations.  The claims settled here do
  not depend on analytic properties of these functions.
* Mutable accumulation loops become `List.foldl`; sequential `+=` / `*=`
  updates become chained `let` bindings; early `return` becomes nested `ite`.
* JavaScript truthiness on optional numeric fields (`!x` is true for both
  `undefined` and `0`) is modelled by `truthy : Option ℚ → Bool`; the
  truthiness of the expiry date string is modelled by comparing its epoch
  timestamp with `0`, and the truthiness check `gexData.zeroGammaLevel` (which
  treats a zero level as absent) becomes `some z` with `z ≠ 0`.
* Reads of the wall clock (`new Date()`) become explicit hour/minute (or
  epoch-milliseconds) parameters.
* Human-readable `reasons` strings are presentation-only and are omitted from
  the embedded return values; no claim depends on them.
-/

/-- Abstraction of the JavaScript math library: `Math.exp`, `Math.log`,
`Math.sqrt` and `Math.PI` as arbitrary rational-valued data.  Theorems about
the GEX calculator hold for every instantiation. -/
structure RealFuns where
  exp : ℚ → ℚ
  log : ℚ → ℚ
  sqrt : ℚ → ℚ
  pi : ℚ

/-- A concrete `RealFuns` instantiation used only to evaluate witnesses. -/
def sampleRealFuns : RealFuns :=
  { exp := fun _ => 1, log := fun _ => 0, sqrt := fun _ => 1, pi := 3 }

/-- OptionContract (gex-calculator.ts).  `expiryMs` is the expiry date as an
epoch-milliseconds timestamp; `0` models the JS-falsy empty string. -/
structure OptionContract where
  strike : ℚ
  expiryMs : ℚ
  isCall : Bool
  openInterest : ℚ
  impliedVolatility : Option ℚ
  volume : Option ℚ
  premium : Option ℚ
  unitGamma : Option ℚ
  unitDelta : Option ℚ

/-- JavaScript truthiness of an optional number: `undefined` and `0` are
falsy, every other value is truthy. -/
def truthy (o : Option ℚ) : Bool :=
  match o with
  | none => false
  | some v => v != 0

/-- The configurable constants of `GEXCalculator`. -/
structure GEXCalculator where
  riskFreeRate : ℚ
  dividendYield : ℚ
  contractSize : ℚ

/-- The default `GEXCalculator` configuration (5% rate, 2% yield, size 100). -/
def defaultGEXCalculator : GEXCalculator :=
  { riskFreeRate := 0.05, dividendYield := 0.02, contractSize := 100 }

/-- Per-strike entry of the returned GEX breakdown. -/
structure PerStrikeEntry where
  strike : ℚ
  gex : ℚ
  callGEX : ℚ
  putGEX : ℚ

/-- GEXData (gex-calculator.ts); the `timestamp` field is presentation-only
and omitted. -/
structure GEXData where
  totalGEX : ℚ
  callGEX : ℚ
  putGEX : ℚ
  zeroGammaLevel : Option ℚ
  currentSpot : ℚ
  perStrikeGEX : List PerStrikeEntry
  profile : List (ℚ × ℚ)

/-- GEXCalculator.calculateUnitGamma: Black-Scholes gamma, returning 0 on the
degenerate inputs `timeToExpiry ≤ 0`, `impliedVolatility ≤ 0` or `spot ≤ 0`.
The embedding is a total function, so the `try/catch` of the source (which
also returns 0) has no residue here. -/
def calculateUnitGamma (F : RealFuns) (spot strike timeToExpiry impliedVolatility
    riskFreeRate dividendYield : ℚ) : ℚ :=
  if timeToExpiry ≤ 0 ∨ impliedVolatility ≤ 0 ∨ spot ≤ 0 then 0
  else
    let d1 := (F.log (spot / strike) +
      (riskFreeRate - dividendYield + 0.5 * impliedVolatility * impliedVolatility) * timeToExpiry) /
      (impliedVolatility * F.sqrt timeToExpiry)
    let phi_d1 := F.exp (-0.5 * d1 * d1) / F.sqrt (2 * F.pi)
    F.exp (-dividendYield * timeToExpiry) * phi_d1 /
      (spot * impliedVolatility * F.sqrt timeToExpiry)

/-- GEXCalculator.calculateTimeToExpiry: days floored at 1, scaled to
business-day year fraction.  Dates appear as epoch milliseconds. -/
def calculateTimeToExpiry (expiryMs nowMs : ℚ) : ℚ :=
  let diffMs := expiryMs - nowMs
  let diffDays := max 1 (diffMs / (1000 * 60 * 60 * 24))
  diffDays / 365 * (262 / 365)

/-- GEXCalculator.calculateOptionGEX: signed dollar GEX per 1% move; calls
positive, puts negative. -/
def calculateOptionGEX (C : GEXCalculator) (unitGamma contracts spot : ℚ)
    (isCall : Bool) : ℚ :=
  let gex := unitGamma * contracts * C.contractSize * spot * spot * 0.01
  if isCall then gex else -gex

/-- GEXCalculator.calculateImpliedVolatility: the coarse closed-form IV
approximation, clamped to [0.1, 2.0]. -/
def calculateImpliedVolatility (F : RealFuns) (optionPrice spot strike
    timeToExpiry : ℚ) (isCall : Bool) : ℚ :=
  if isCall then
    max 0.1 (min 2.0 (optionPrice / spot * F.sqrt (2 * F.pi / timeToExpiry)))
  else
    max 0.1 (min 2.0 (optionPrice / strike * F.sqrt (2 * F.pi / timeToExpiry)))

/-- The IV resolution sequence inside `calculateGEX`: explicit IV if truthy,
else derived from a truthy premium, else the 0.3 default. -/
def resolveImpliedVolatility (F : RealFuns) (c : OptionContract)
    (currentSpot timeToExpiry : ℚ) : ℚ :=
  let iv0 := c.impliedVolatility
  let iv1 := if ¬ truthy iv0 ∧ truthy c.premium then
      some (calculateImpliedVolatility F (c.premium.getD 0) currentSpot c.strike
        timeToExpiry c.isCall)
    else iv0
  if truthy iv1 then iv1.getD 0 else 0.3

/-- The validity guard at the top of both contract loops:
`!contract.strike || !contract.expiry || !contract.openInterest` skips the
contract. -/
def contractValid (c : OptionContract) : Bool :=
  c.strike != 0 && c.expiryMs != 0 && c.openInterest != 0

/-- Insertion-ordered upsert modelling the `Map`-based per-strike
accumulation: entries are (strike, callGEX, putGEX). -/
def upsertStrike (m : List (ℚ × ℚ × ℚ)) (strike dCall dPut : ℚ) :
    List (ℚ × ℚ × ℚ) :=
  match m with
  | [] => [(strike, dCall, dPut)]
  | e :: rest =>
    if e.1 = strike then (e.1, e.2.1 + dCall, e.2.2 + dPut) :: rest
    else e :: upsertStrike rest strike dCall dPut

/-- One iteration of the contract loop in `calculateGEX`: accumulator is
(totalCallGEX, totalPutGEX, perStrikeMap). -/
def gexStep (F : RealFuns) (C : GEXCalculator) (currentSpot nowMs : ℚ)
    (acc : ℚ × ℚ × List (ℚ × ℚ × ℚ)) (c : OptionContract) :
    ℚ × ℚ × List (ℚ × ℚ × ℚ) :=
  if ¬ contractValid c then acc
  else
    let timeToExpiry := calculateTimeToExpiry c.expiryMs nowMs
    let iv := resolveImpliedVolatility F c currentSpot timeToExpiry
    let unitGamma := if truthy c.unitGamma then c.unitGamma.getD 0
      else calculateUnitGamma F currentSpot c.strike timeToExpiry iv
        C.riskFreeRate C.dividendYield
    let optionGEX := calculateOptionGEX C unitGamma c.openInterest currentSpot c.isCall
    if c.isCall then
      (acc.1 + optionGEX, acc.2.1, upsertStrike acc.2.2 c.strike optionGEX 0)
    else
      (acc.1, acc.2.1 + optionGEX, upsertStrike acc.2.2 c.strike 0 optionGEX)

/-- GEXCalculator.calculateGEXProfile: total GEX recomputed at 41 spot levels
spanning [0.8, 1.2] × currentSpot.  As in the source, the IV resolution uses
`currentSpot` while the unit gamma is recomputed at the hypothetical
`spotLevel` (ignoring any stored `unitGamma`). -/
def calculateGEXProfile (F : RealFuns) (C : GEXCalculator)
    (contracts : List OptionContract) (currentSpot nowMs : ℚ) : List (ℚ × ℚ) :=
  let minSpot := currentSpot * 0.8
  let maxSpot := currentSpot * 1.2
  let numLevels : ℕ := 40
  (List.range (numLevels + 1)).map (fun (i : ℕ) =>
    let spotLevel := minSpot + (maxSpot - minSpot) * (i : ℚ) / (numLevels : ℚ)
    let total := contracts.foldl (fun acc c =>
      if ¬ contractValid c then acc
      else
        let timeToExpiry := calculateTimeToExpiry c.expiryMs nowMs
        let iv := resolveImpliedVolatility F c currentSpot timeToExpiry
        let unitGamma := calculateUnitGamma F spotLevel c.strike timeToExpiry iv
          C.riskFreeRate C.dividendYield
        acc + calculateOptionGEX C unitGamma c.openInterest spotLevel c.isCall) 0
    (spotLevel, total))

/-- The sign-change test of the ZGL scan: the adjacent totals are of strictly
opposite signs (a total of exactly 0 is not a crossing). -/
def isGexCrossing (p q : ℚ × ℚ) : Prop :=
  (p.2 > 0 ∧ q.2 < 0) ∨ (p.2 < 0 ∧ q.2 > 0)

instance (p q : ℚ × ℚ) : Decidable (isGexCrossing p q) := by
  unfold isGexCrossing; infer_instance

/-- The linear interpolation of the zero crossing between two adjacent
profile samples, exactly as computed in `findZeroGammaLevel`. -/
def interpolatedZero (p q : ℚ × ℚ) : ℚ :=
  q.1 - (q.1 - p.1) * q.2 / (q.2 - p.2)

/-- GEXCalculator.findZeroGammaLevel: scan the profile for the first adjacent
pair of opposite-signed totals and linearly interpolate the crossing; `none`
when no strict sign change exists. -/
def findZeroGammaLevel : List (ℚ × ℚ) → Option ℚ
  | p :: q :: rest =>
    if isGexCrossing p q then some (interpolatedZero p q)
    else findZeroGammaLevel (q :: rest)
  | _ => none

/-- GEXCalculator.calculateGEX: aggregate call/put/total GEX, the per-strike
breakdown, the spot profile and the Zero Gamma Level; billions-scaled fields
divide the raw dollar sums by 1e9. -/
def calculateGEX (F : RealFuns) (C : GEXCalculator)
    (contracts : List OptionContract) (currentSpot nowMs : ℚ) : GEXData :=
  let acc := contracts.foldl (gexStep F C currentSpot nowMs) (0, 0, [])
  let totalCallGEX := acc.1
  let totalPutGEX := acc.2.1
  let perStrikeGEX := (acc.2.2.map (fun e =>
      PerStrikeEntry.mk e.1 (e.2.1 + e.2.2) e.2.1 e.2.2)).insertionSort
      (fun a b => a.strike ≤ b.strike)
  let profile := calculateGEXProfile F C contracts currentSpot nowMs
  let zeroGammaLevel := findZeroGammaLevel profile
  { totalGEX := (totalCallGEX + totalPutGEX) / 1000000000
    callGEX := totalCallGEX / 1000000000
    putGEX := totalPutGEX / 1000000000
    zeroGammaLevel := zeroGammaLevel
    currentSpot := currentSpot
    perStrikeGEX := perStrikeGEX
    profile := profile.map (fun p => (p.1, p.2 / 1000000000)) }

/-- OptionsFlowSignals (unusual-whales-client.ts); counts and premiums are JS
numbers, hence `ℚ`.  The `recentAlertsList` payload is not consumed by any
embedded component and is omitted. -/
structure OptionsFlowSignals where
  sentimentScore : ℚ
  totalAlerts : ℚ
  recentAlerts : ℚ
  bullishCount : ℚ
  bearishCount : ℚ
  avgPremium : ℚ
  largeTradesCount : ℚ
  hasUnusualFlow : Bool
  dominantSentiment : String

/-- MarketData (qppf-algorithm.ts); the `timestamp` field is omitted. -/
structure MarketData where
  symbol : String
  price : ℚ
  volume : ℚ
  bid : ℚ
  ask : ℚ

/-- QPPFAlgorithm.calculateConfidence (GEX-aware variant): base 0.5 with
additive boosts, a ×0.8 low-volume penalty, GEX-positioning boosts, capped at
0.95.  The sequential `+=`/`*=` updates of the source become chained `let`
bindings; following JS truthiness, a `zeroGammaLevel` of exactly 0 disables
the GEX boosts. -/
def calculateConfidence (uwSignals : OptionsFlowSignals) (marketData : MarketData)
    (gexData : Option GEXData) : ℚ :=
  let c1 := 0.5 + (if uwSignals.hasUnusualFlow then 0.3 else 0)
  let sentimentStrength := |uwSignals.sentimentScore|
  let c2 := c1 + (if sentimentStrength > 0.5 then 0.2
    else if sentimentStrength > 0.3 then 0.1 else 0)
  let c3 := c2 + (if uwSignals.largeTradesCount > 2 then 0.15 else 0)
  let c4 := if marketData.volume < 1000000 then c3 * 0.8 else c3
  let c5 := c4 + (if uwSignals.recentAlerts > 5 then 0.1 else 0)
  let gexBoost :=
    match gexData with
    | none => 0
    | some g =>
      match g.zeroGammaLevel with
      | none => 0
      | some zgl =>
        if zgl = 0 then 0
        else
          let priceVsZGL := marketData.price - zgl
          let zglDistance := |priceVsZGL| / zgl
          (if zglDistance > 0.02 then 0.1 else 0) +
          (if (g.totalGEX > 0 ∧ priceVsZGL < 0) ∨ (g.totalGEX < 0 ∧ priceVsZGL > 0)
            then 0.05 else 0)
  min 0.95 (c5 + gexBoost)

/-- Trade direction values of a QPPF signal. -/
inductive Direction where
  | LONG
  | SHORT
  | FLAT
deriving DecidableEq, Repr

/-- The bullish/bearish factor tallies of QPPFAlgorithm.calculateDirection.
Each factor contributes 0 or 1 to its side; the wall-clock read of factor 6
is the explicit `utcHour` parameter, and the algorithm state's price history
is the explicit `priceHistory` parameter.  The `else if` pairs of factors 1
and 3 are mutually exclusive comparisons, so each side is embedded by its own
condition. -/
def directionFactors (uwSignals : OptionsFlowSignals) (marketData : MarketData)
    (gexData : Option GEXData) (priceHistory : List ℚ) (utcHour : ℕ) : ℕ × ℕ :=
  let f1Bull : ℕ := if uwSignals.bullishCount > uwSignals.bearishCount then 1 else 0
  let f1Bear : ℕ := if uwSignals.bearishCount > uwSignals.bullishCount then 1 else 0
  let f2Bull : ℕ := if uwSignals.avgPremium > 15000 ∧ uwSignals.totalAlerts > 30 then 1 else 0
  let zglBull : ℕ :=
    match gexData with
    | none => 0
    | some g =>
      match g.zeroGammaLevel with
      | none => 0
      | some z => if z ≠ 0 ∧ marketData.price > z then 1 else 0
  let zglBear : ℕ :=
    match gexData with
    | none => 0
    | some g =>
      match g.zeroGammaLevel with
      | none => 0
      | some z => if z ≠ 0 ∧ marketData.price < z then 1 else 0
  let gexBull : ℕ :=
    match gexData with
    | none => 0
    | some g => if g.callGEX > |g.putGEX| then 1 else 0
  let gexBear : ℕ :=
    match gexData with
    | none => 0
    | some g => if |g.putGEX| > g.callGEX then 1 else 0
  let f4Bull : ℕ := if marketData.volume > 30000000 then 1 else 0
  let spread := marketData.ask - marketData.bid
  let spreadPercentage := spread / marketData.price * 100
  let f5Bull : ℕ := if spreadPercentage < 0.01 then 1 else 0
  let f6Bull : ℕ := if 14 ≤ utcHour ∧ utcHour ≤ 20 then 1 else 0
  let recentPrices := priceHistory.drop (priceHistory.length - 3)
  let priceTrend := recentPrices.getD (recentPrices.length - 1) 0 - recentPrices.getD 0 0
  let momBull : ℕ := if priceHistory.length ≥ 3 ∧ priceTrend > 0 then 1 else 0
  let momBear : ℕ := if priceHistory.length ≥ 3 ∧ priceTrend < 0 then 1 else 0
  (f1Bull + f2Bull + zglBull + gexBull + f4Bull + f5Bull + f6Bull + momBull,
   f1Bear + zglBear + gexBear + momBear)

/-- QPPFAlgorithm.calculateDirection (GEX-aware variant): a strong-sentiment
override at ±0.4, otherwise the factor-vote tally requiring at least two
votes on one side and strictly more than the other. -/
def calculateDirection (uwSignals : OptionsFlowSignals) (marketData : MarketData)
    (gexData : Option GEXData) (priceHistory : List ℚ) (utcHour : ℕ) : Direction :=
  if uwSignals.sentimentScore > 0.4 then Direction.LONG
  else if uwSignals.sentimentScore < -0.4 then Direction.SHORT
  else
    let counts := directionFactors uwSignals marketData gexData priceHistory utcHour
    let bullishFactors := counts.1
    let bearishFactors := counts.2
    if bullishFactors ≥ 2 ∧ bullishFactors > bearishFactors then Direction.LONG
    else if bearishFactors ≥ 2 ∧ bearishFactors > bullishFactors then Direction.SHORT
    else Direction.FLAT

/-- The fields of a QPPFSignal consumed by the RiskManager; the remaining
fields (reasons, market snapshot, flow payload, GEX payload, timestamp) are
not read by `assessTrade` and are omitted. -/
structure QPPFSignal where
  direction : Direction
  confidence : ℚ
  strength : ℚ
  sentiment : String

/-- AlpacaAccount (alpaca-trading-service.ts); numeric fields only — the
RiskManager reads `portfolioValue` and `buyingPower`. -/
structure AlpacaAccount where
  portfolioValue : ℚ
  buyingPower : ℚ
  cash : ℚ
  dayTradeCount : ℚ

/-- AlpacaPosition (alpaca-trading-service.ts); the RiskManager reads `qty`,
`currentPrice` and `unrealizedPL`. -/
structure AlpacaPosition where
  symbol : String
  qty : ℚ
  avgEntryPrice : ℚ
  currentPrice : ℚ
  unrealizedPL : ℚ

/-- RiskParameters (risk-manager.ts). -/
structure RiskParameters where
  maxPortfolioRisk : ℚ
  maxTradeRisk : ℚ
  minConfidence : ℚ
  maxRiskScore : ℚ
  maxDrawdown : ℚ
  maxPositionCount : ℕ

/-- The defaults installed by the RiskManager constructor. -/
def defaultRiskParameters : RiskParameters :=
  { maxPortfolioRisk := 0.05
    maxTradeRisk := 0.02
    minConfidence := 0.60
    maxRiskScore := 0.50
    maxDrawdown := 0.15
    maxPositionCount := 10 }

/-- Recommendation values of a RiskAssessment. -/
inductive Recommendation where
  | execute
  | reduce
  | reject
deriving DecidableEq, Repr

/-- RiskAssessment (risk-manager.ts); the `reasons` strings are
presentation-only and omitted. -/
structure RiskAssessment where
  positionSize : ℤ
  riskScore : ℚ
  maxPositionSize : ℤ
  confidenceMultiplier : ℚ
  riskAmount : ℚ
  recommendation : Recommendation

/-- RiskManager.calculateBasePositionSize: portfolio × maxTradeRisk ×
clamp(confidence, 0.1, 1.0), divided by price. -/
def calculateBasePositionSize (params : RiskParameters)
    (portfolioValue confidence currentPrice : ℚ) : ℚ :=
  let baseRiskAmount := portfolioValue * params.maxTradeRisk
  let confidenceMultiplier := max 0.1 (min 1.0 confidence)
  let riskAmount := baseRiskAmount * confidenceMultiplier
  riskAmount / currentPrice

/-- RiskManager.applyRiskMultipliers: the multiplier starts at
`signal.confidence`, the four conditional boosts apply in sequence, and the
result is capped at 1.5.  Returns (adjustedSize, multiplier). -/
def applyRiskMultipliers (baseSize : ℚ) (signal : QPPFSignal)
    (uwSignals : OptionsFlowSignals) : ℚ × ℚ :=
  let m0 := signal.confidence
  let m1 := if uwSignals.hasUnusualFlow ∧ |uwSignals.sentimentScore| > 0.4
    then m0 * 1.2 else m0
  let m2 := if uwSignals.largeTradesCount ≥ 3 then m1 * 1.15 else m1
  let m3 := if signal.sentiment ≠ uwSignals.dominantSentiment ∧ uwSignals.hasUnusualFlow
    then m2 * 0.8 else m2
  let m4 := if signal.strength < 0.6 then m3 * 0.9 else m3
  let multiplier := min 1.5 m4
  (baseSize * multiplier, multiplier)

/-- RiskManager.calculateCurrentPortfolioRisk: Σ |qty × currentPrice| over the
open positions, divided by portfolio value. -/
def calculateCurrentPortfolioRisk (account : AlpacaAccount)
    (positions : List AlpacaPosition) : ℚ :=
  let totalPositionValue := positions.foldl
    (fun sum pos => sum + |pos.qty * pos.currentPrice|) 0
  totalPositionValue / account.portfolioValue

/-- RiskManager.checkPortfolioLimits: position-count gate, buying-power clamp,
then the portfolio-risk clamp; the early `return` of the count gate and the
final `Math.max(0, ·)` are embedded directly. -/
def checkPortfolioLimits (params : RiskParameters) (size : ℚ)
    (account : AlpacaAccount) (positions : List AlpacaPosition)
    (currentPrice : ℚ) : ℚ :=
  if positions.length ≥ params.maxPositionCount then 0
  else
    let requiredCapital := size * currentPrice
    let adjusted1 := if requiredCapital > account.buyingPower
      then account.buyingPower / currentPrice else size
    let currentRisk := calculateCurrentPortfolioRisk account positions
    let newTradeRisk := adjusted1 * currentPrice / account.portfolioValue
    let adjusted2 :=
      if currentRisk + newTradeRisk > params.maxPortfolioRisk then
        let maxNewRisk := params.maxPortfolioRisk - currentRisk
        if maxNewRisk ≤ 0 then 0
        else maxNewRisk * account.portfolioValue / currentPrice
      else adjusted1
    max 0 adjusted2

/-- RiskManager.getMarketTimingRisk: elevated near market open/close, flat
baseline otherwise; the wall-clock read becomes explicit hour/minute. -/
def getMarketTimingRisk (hour minute : ℕ) : ℚ :=
  if (hour = 9 ∧ minute < 45) ∨ (hour = 15 ∧ minute > 45) then 0.3 else 0.1

/-- RiskManager.calculateRiskScore: weighted sum of confidence, size,
conflict, concentration and timing risks, capped at 1.0. -/
def calculateRiskScore (params : RiskParameters) (signal : QPPFSignal)
    (uwSignals : OptionsFlowSignals) (positionSize : ℚ)
    (account : AlpacaAccount) (positions : List AlpacaPosition)
    (hour minute : ℕ) : ℚ :=
  let confidenceRisk := (1.0 - signal.confidence) * 0.4
  let positionRisk := min (positionSize * 450 /
    (account.portfolioValue * params.maxTradeRisk)) 1.0 * 0.3
  let conflictRisk := if uwSignals.hasUnusualFlow ∧
    signal.sentiment ≠ uwSignals.dominantSentiment then (0.2 : ℚ) else 0
  let concentrationRisk := min ((positions.length : ℚ) / (params.maxPositionCount : ℚ)) 1.0 * 0.1
  let marketRisk := getMarketTimingRisk hour minute * 0.05
  min 1.0 (confidenceRisk + positionRisk + conflictRisk * 0.15 + concentrationRisk + marketRisk)

/-- RiskManager.assessTrade: base size, multipliers, portfolio limits, risk
score, then the ordered recommendation decision.  The returned size is
`Math.max(0, Math.floor(portfolioLimitedSize))`. -/
def assessTrade (params : RiskParameters) (signal : QPPFSignal)
    (uwSignals : OptionsFlowSignals) (account : AlpacaAccount)
    (positions : List AlpacaPosition) (currentPrice : ℚ)
    (hour minute : ℕ) : RiskAssessment :=
  let basePositionSize := calculateBasePositionSize params account.portfolioValue
    signal.confidence currentPrice
  let am := applyRiskMultipliers basePositionSize signal uwSignals
  let portfolioLimitedSize := checkPortfolioLimits params am.1 account positions currentPrice
  let riskScore := calculateRiskScore params signal uwSignals portfolioLimitedSize
    account positions hour minute
  let recommendation :=
    if signal.confidence < params.minConfidence then Recommendation.reject
    else if riskScore > params.maxRiskScore then Recommendation.reject
    else if portfolioLimitedSize < basePositionSize * 0.5 then Recommendation.reduce
    else Recommendation.execute
  { positionSize := max 0 ⌊portfolioLimitedSize⌋
    riskScore := riskScore
    maxPositionSize := ⌊account.portfolioValue * params.maxTradeRisk / currentPrice⌋
    confidenceMultiplier := am.2
    riskAmount := portfolioLimitedSize * currentPrice
    recommendation := recommendation }

/-- RiskManager.shouldExecuteTrade: recommendation is `execute` and size is
strictly positive. -/
def shouldExecuteTrade (assessment : RiskAssessment) : Bool :=
  decide (assessment.recommendation = Recommendation.execute) &&
  decide (0 < assessment.positionSize)

/-- A fully neutral flow-signal record: no alerts, zero sentiment, no unusual
flow.  Used as a concrete evaluation point. -/
def uwNeutral : OptionsFlowSignals :=
  { sentimentScore := 0
    totalAlerts := 0
    recentAlerts := 0
    bullishCount := 0
    bearishCount := 0
    avgPremium := 0
    largeTradesCount := 0
    hasUnusualFlow := false
    dominantSentiment := "neutral" }

/-- A concrete market-data snapshot used as an evaluation point. -/
def mdSample : MarketData :=
  { symbol := "SPY", price := 100, volume := 0, bid := 99, ask := 101 }

/-- A signal with confidence 0.55 (below the default 0.60 minimum) and
strength 0.7, sentiment agreeing with the neutral flow. -/
def sigLowConfidence : QPPFSignal :=
  { direction := Direction.FLAT
    confidence := 0.55
    strength := 0.7
    sentiment := "neutral" }

/-- A signal with confidence 0.7 and strength 0.7, sentiment agreeing with
the neutral flow, so that none of the four listed boosts applies. -/
def sigNoBoosts : QPPFSignal :=
  { direction := Direction.FLAT
    confidence := 0.7
    strength := 0.7
    sentiment := "neutral" }

/-- A concrete account: $100,000 portfolio value and buying power. -/
def acctSample : AlpacaAccount :=
  { portfolioValue := 100000, buyingPower := 100000, cash := 100000, dayTradeCount := 0 }

/-- C3: for every math-library instantiation, calculator configuration,
contract list, spot price and clock reading, the GEXData returned by
`calculateGEX` satisfies totalGEX = callGEX + putGEX exactly, each side being
the corresponding raw dollar sum divided by 1e9. -/
theorem calculateGEX_total_eq_call_add_put (F : RealFuns) (C : GEXCalculator)
    (contracts : List OptionContract) (currentSpot nowMs : ℚ) :
    (calculateGEX F C contracts currentSpot nowMs).totalGEX =
      (calculateGEX F C contracts currentSpot nowMs).callGEX +
      (calculateGEX F C contracts currentSpot nowMs).putGEX := by
  unfold calculateGEX
  dsimp only
  ring

/-- C6: for every input with timeToExpiry ≤ 0, impliedVolatility ≤ 0 or
spot ≤ 0, `calculateUnitGamma` returns exactly 0; as a total function of its
inputs it raises no exception. -/
theorem calculateUnitGamma_degenerate_zero (F : RealFuns)
    (spot strike timeToExpiry impliedVolatility riskFreeRate dividendYield : ℚ)
    (h : timeToExpiry ≤ 0 ∨ impliedVolatility ≤ 0 ∨ spot ≤ 0) :
    calculateUnitGamma F spot strike timeToExpiry impliedVolatility
      riskFreeRate dividendYield = 0 := by
  unfold calculateUnitGamma
  rw [if_pos h]

/-- Witness for C6: an expired at-the-money contract evaluates to unit gamma
0 under a concrete math-library instantiation. -/
theorem calculateUnitGamma_degenerate_zero_witness :
    calculateUnitGamma sampleRealFuns 450 450 0 0.3 0.05 0.02 = 0 :=
  calculateUnitGamma_degenerate_zero sampleRealFuns 450 450 0 0.3 0.05 0.02
    (Or.inl (by norm_num))

/-- C10: `findZeroGammaLevel` returns `none` whenever no adjacent pair of
profile samples has totals of strictly opposite signs; in particular a sample
with total exactly 0 never forms part of a crossing. -/
theorem findZeroGammaLevel_none_of_no_crossing (profile : List (ℚ × ℚ))
    (h : List.Chain' (fun p q => ¬ isGexCrossing p q) profile) :
    findZeroGammaLevel profile = none := by
  induction profile with
  | nil => rfl
  | cons a tail ih =>
    cases tail with
    | nil => rfl
    | cons b rest =>
      rw [findZeroGammaLevel, if_neg (List.chain'_cons.mp h).1]
      exact ih (List.chain'_cons.mp h).2

/-- Witness for C10: a profile that goes from positive total through an exact
zero to negative total — touching zero without strictly crossing — yields no
Zero Gamma Level. -/
theorem findZeroGammaLevel_none_of_no_crossing_witness :
    findZeroGammaLevel [((1 : ℚ), (1 : ℚ)), (2, 0), (3, -1)] = none :=
  findZeroGammaLevel_none_of_no_crossing _ (by
    simp only [List.chain'_cons, List.chain'_singleton, and_true]
    unfold isGexCrossing
    norm_num)

/-- Algebra of the ZGL interpolation: at a strict sign crossing between two
samples with increasing spot levels, the interpolated level lies strictly
between them and the linear interpolant of the totals vanishes there
exactly. -/
theorem interpolatedZero_between (p q : ℚ × ℚ) (hlt : p.1 < q.1)
    (hc : isGexCrossing p q) :
    p.1 < interpolatedZero p q ∧ interpolatedZero p q < q.1 ∧
      p.2 + (interpolatedZero p q - p.1) * (q.2 - p.2) / (q.1 - p.1) = 0 := by
  have hs : q.1 - p.1 ≠ 0 := sub_ne_zero.mpr (ne_of_gt hlt)
  rcases hc with ⟨hg1, hg2⟩ | ⟨hg1, hg2⟩
  · have hD : q.2 - p.2 < 0 := by linarith
    have hDne : q.2 - p.2 ≠ 0 := ne_of_lt hD
    have h1 : interpolatedZero p q - p.1 = (q.1 - p.1) * (-p.2) / (q.2 - p.2) := by
      unfold interpolatedZero
      field_simp
      ring
    have h2 : q.1 - interpolatedZero p q = (q.1 - p.1) * q.2 / (q.2 - p.2) := by
      unfold interpolatedZero
      field_simp
    have hp1 : 0 < interpolatedZero p q - p.1 := by
      rw [h1]
      exact div_pos_of_neg_of_neg
        (mul_neg_of_pos_of_neg (by linarith) (by linarith)) hD
    have hp2 : 0 < q.1 - interpolatedZero p q := by
      rw [h2]
      exact div_pos_of_neg_of_neg
        (mul_neg_of_pos_of_neg (by linarith) hg2) hD
    refine ⟨by linarith, by linarith, ?_⟩
    rw [h1]
    field_simp [hDne]
    ring
  · have hD : 0 < q.2 - p.2 := by linarith
    have hDne : q.2 - p.2 ≠ 0 := ne_of_gt hD
    have h1 : interpolatedZero p q - p.1 = (q.1 - p.1) * (-p.2) / (q.2 - p.2) := by
      unfold interpolatedZero
      field_simp
      ring
    have h2 : q.1 - interpolatedZero p q = (q.1 - p.1) * q.2 / (q.2 - p.2) := by
      unfold interpolatedZero
      field_simp
    have hp1 : 0 < interpolatedZero p q - p.1 := by
      rw [h1]
      exact div_pos (mul_pos (by linarith) (by linarith)) hD
    have hp2 : 0 < q.1 - interpolatedZero p q := by
      rw [h2]
      exact div_pos (mul_pos (by linarith) hg2) hD
    refine ⟨by linarith, by linarith, ?_⟩
    rw [h1]
    field_simp [hDne]
    ring

/-- C5: whenever `findZeroGammaLevel` returns a level on a profile whose spot
levels strictly increase (as the profiles built by `calculateGEXProfile` do),
the profile splits around the first adjacent pair with strictly
opposite-signed totals — no earlier adjacent pair crosses — and the returned
level lies strictly between that pair's spot levels, with the linear
interpolation of the totals evaluating to zero there exactly. -/
theorem findZeroGammaLevel_brackets_first_crossing (profile : List (ℚ × ℚ))
    (z : ℚ) (hsorted : List.Chain' (fun p q : ℚ × ℚ => p.1 < q.1) profile)
    (hz : findZeroGammaLevel profile = some z) :
    ∃ l₁ p q l₂, profile = l₁ ++ p :: q :: l₂ ∧
      List.Chain' (fun a b : ℚ × ℚ => ¬ isGexCrossing a b) (l₁ ++ [p]) ∧
      isGexCrossing p q ∧ p.1 < z ∧ z < q.1 ∧
      p.2 + (z - p.1) * (q.2 - p.2) / (q.1 - p.1) = 0 := by
  induction profile with
  | nil => simp [findZeroGammaLevel] at hz
  | cons a tail ih =>
    cases tail with
    | nil => simp [findZeroGammaLevel] at hz
    | cons b rest =>
      by_cases hc : isGexCrossing a b
      · rw [findZeroGammaLevel, if_pos hc, Option.some.injEq] at hz
        have hab : a.1 < b.1 := (List.chain'_cons.mp hsorted).1
        obtain ⟨h1, h2, h3⟩ := interpolatedZero_between a b hab hc
        exact ⟨[], a, b, rest, rfl, List.chain'_singleton a, hc,
          hz ▸ h1, hz ▸ h2, hz ▸ h3⟩
      · rw [findZeroGammaLevel, if_neg hc] at hz
        obtain ⟨l₁, p, q, l₂, heq, hchain, hcpq, hlt1, hlt2, hzero⟩ :=
          ih (List.chain'_cons.mp hsorted).2 hz
        refine ⟨a :: l₁, p, q, l₂, by rw [heq, List.cons_append], ?_, hcpq, hlt1, hlt2, hzero⟩
        rw [List.cons_append]
        refine List.chain'_cons'.mpr ⟨?_, hchain⟩
        intro y hy
        cases l₁ with
        | nil =>
          simp only [List.nil_append, List.head?_cons, Option.mem_def,
            Option.some.injEq] at hy
          have hbp : b = p := by
            have := congrArg List.head? heq
            simpa using this
          rw [← hy, ← hbp]
          exact hc
        | cons c l₁t =>
          simp only [List.cons_append, List.head?_cons, Option.mem_def,
            Option.some.injEq] at hy
          have hbc : b = c := by
            have := congrArg List.head? heq
            simpa using this
          rw [← hy, ← hbc]
          exact hc

/-- Witness for C5: the two-sample profile [(1, 1), (2, −1)] has a crossing,
`findZeroGammaLevel` returns 3/2, and the theorem's bracketing and
interpolation facts hold there. -/
theorem findZeroGammaLevel_brackets_first_crossing_witness :
    ∃ l₁ p q l₂, ([((1 : ℚ), (1 : ℚ)), (2, -1)] : List (ℚ × ℚ)) = l₁ ++ p :: q :: l₂ ∧
      List.Chain' (fun a b : ℚ × ℚ => ¬ isGexCrossing a b) (l₁ ++ [p]) ∧
      isGexCrossing p q ∧ p.1 < 3/2 ∧ 3/2 < q.1 ∧
      p.2 + (3/2 - p.1) * (q.2 - p.2) / (q.1 - p.1) = 0 :=
  findZeroGammaLevel_brackets_first_crossing [((1 : ℚ), (1 : ℚ)), (2, -1)] (3/2)
    (by
      simp only [List.chain'_cons, List.chain'_singleton, and_true]
      norm_num)
    (by
      rw [findZeroGammaLevel, if_pos (by unfold isGexCrossing; norm_num)]
      unfold interpolatedZero
      norm_num)

/-- Arithmetic core of the confidence bounds: starting from 0.5, adding
non-negative boosts, optionally multiplying once by 0.8 and capping at 0.95
always lands in [0.4, 0.95]. -/
theorem confidenceExprBounds (vol : Prop) [Decidable vol] (i1 i2 i3 i5 gb : ℚ)
    (h1 : 0 ≤ i1) (h2 : 0 ≤ i2) (h3 : 0 ≤ i3) (h5 : 0 ≤ i5) (hg : 0 ≤ gb) :
    0.4 ≤ min 0.95
        ((if vol then (0.5 + i1 + i2 + i3) * 0.8 else 0.5 + i1 + i2 + i3) + i5 + gb) ∧
      min 0.95
        ((if vol then (0.5 + i1 + i2 + i3) * 0.8 else 0.5 + i1 + i2 + i3) + i5 + gb) ≤ 0.95 := by
  constructor
  · apply le_min (by norm_num)
    split_ifs <;> nlinarith
  · exact min_le_left _ _

/-- Shared bound computation for `calculateConfidence`: the result always
lies in [0.4, 0.95] — the base 0.5 only ever grows by non-negative boosts,
the single ×0.8 low-volume penalty is the only reduction, and the final cap
is 0.95. -/
theorem calculateConfidence_bounds (uwSignals : OptionsFlowSignals)
    (marketData : MarketData) (gexData : Option GEXData) :
    0.4 ≤ calculateConfidence uwSignals marketData gexData ∧
      calculateConfidence uwSignals marketData gexData ≤ 0.95 := by
  unfold calculateConfidence
  apply confidenceExprBounds
  · split_ifs <;> norm_num
  · split_ifs <;> norm_num
  · split_ifs <;> norm_num
  · split_ifs <;> norm_num
  · rcases gexData with _ | g
    · norm_num
    · rcases hz : g.zeroGammaLevel with _ | z
      · simp only [hz]
        norm_num
      · simp only [hz]
        split_ifs <;> norm_num

/-- C7: for every combination of flow-sentiment statistics, market data and
optional GEX data, `calculateConfidence` returns a value in [0, 0.95]. -/
theorem calculateConfidence_mem_zero_ninetyfive (uwSignals : OptionsFlowSignals)
    (marketData : MarketData) (gexData : Option GEXData) :
    0 ≤ calculateConfidence uwSignals marketData gexData ∧
      calculateConfidence uwSignals marketData gexData ≤ 0.95 := by
  obtain ⟨h1, h2⟩ := calculateConfidence_bounds uwSignals marketData gexData
  exact ⟨by linarith, h2⟩

/-- C9: `calculateConfidence` in fact never returns less than 0.4 — the base
0.5 grows only by non-negative boosts and the single ×0.8 low-volume penalty
is the only reduction — so the scorer's result always lies in [0.4, 0.95], a
strictly tighter lower bound than the stated [0, 0.95]. -/
theorem calculateConfidence_ge_point_four (uwSignals : OptionsFlowSignals)
    (marketData : MarketData) (gexData : Option GEXData) :
    0.4 ≤ calculateConfidence uwSignals marketData gexData ∧
      calculateConfidence uwSignals marketData gexData ≤ 0.95 :=
  calculateConfidence_bounds uwSignals marketData gexData

/-- C8: on every input where the strong-sentiment override does not fire
(sentimentScore in [−0.4, 0.4]) and the bullish factor tally equals the
bearish factor tally, `calculateDirection` returns FLAT — for any vote
count. -/
theorem calculateDirection_flat_of_tied_votes (uwSignals : OptionsFlowSignals)
    (marketData : MarketData) (gexData : Option GEXData) (priceHistory : List ℚ)
    (utcHour : ℕ) (hlo : -0.4 ≤ uwSignals.sentimentScore)
    (hhi : uwSignals.sentimentScore ≤ 0.4)
    (htie : (directionFactors uwSignals marketData gexData priceHistory utcHour).1 =
      (directionFactors uwSignals marketData gexData priceHistory utcHour).2) :
    calculateDirection uwSignals marketData gexData priceHistory utcHour =
      Direction.FLAT := by
  unfold calculateDirection
  rw [if_neg (not_lt.mpr hhi), if_neg (not_lt.mpr hlo)]
  dsimp only
  rw [htie]
  simp [lt_irrefl]

/-- Witness for C8: with fully neutral flow, a quiet market snapshot, no GEX
data, an empty price history and an off-hours clock, the factor tally is tied
at 0–0 and the direction is FLAT. -/
theorem calculateDirection_flat_of_tied_votes_witness :
    calculateDirection uwNeutral mdSample none [] 10 = Direction.FLAT :=
  calculateDirection_flat_of_tied_votes uwNeutral mdSample none [] 10
    (by norm_num [uwNeutral]) (by norm_num [uwNeutral])
    (by norm_num [directionFactors, uwNeutral, mdSample])

/-- The product of the applicable boosts exactly as the spec lists them
(×1.2 unusual flow with strong sentiment, ×1.15 for ≥3 large trades, ×0.8 for
conflicting sentiment under unusual flow, ×0.9 for low strength); written
from the spec's words for comparison with `applyRiskMultipliers`. -/
def specBoostProduct (signal : QPPFSignal) (uwSignals : OptionsFlowSignals) : ℚ :=
  (if uwSignals.hasUnusualFlow ∧ |uwSignals.sentimentScore| > 0.4 then 1.2 else 1) *
  (if uwSignals.largeTradesCount ≥ 3 then 1.15 else 1) *
  (if signal.sentiment ≠ uwSignals.dominantSentiment ∧ uwSignals.hasUnusualFlow then 0.8 else 1) *
  (if signal.strength < 0.6 then 0.9 else 1)

/-- Counterexample for C4: with no boost applicable (neutral flow, agreeing
sentiment, strength 0.7) and confidence 0.7, the adjusted size for base 10 is
7, not 10 = base × min(1.5, product of applicable boosts) as the claim
states — the multiplier starts at `signal.confidence`, not at 1. -/
theorem applyRiskMultipliers_not_spec_product_cex :
    (applyRiskMultipliers 10 sigNoBoosts uwNeutral).1 = 7 ∧
      10 * min 1.5 (specBoostProduct sigNoBoosts uwNeutral) = 10 ∧ (7 : ℚ) ≠ 10 := by
  refine ⟨?_, ?_, by norm_num⟩
  · norm_num [applyRiskMultipliers, sigNoBoosts, uwNeutral]
  · norm_num [specBoostProduct, sigNoBoosts, uwNeutral]

/-- C4 (amended): the size after risk-multiplier adjustment equals the base
size multiplied by min(1.5, signal.confidence × product of the applicable
listed boosts): the multiplier is seeded with the signal confidence before
the four listed boosts apply, and the combined multiplier is capped at 1.5
no matter how many boosts stack. -/
theorem applyRiskMultipliers_eq_confidence_mul_boosts (baseSize : ℚ)
    (signal : QPPFSignal) (uwSignals : OptionsFlowSignals) :
    (applyRiskMultipliers baseSize signal uwSignals).1 =
      baseSize * min 1.5 (signal.confidence * specBoostProduct signal uwSignals) := by
  unfold applyRiskMultipliers specBoostProduct
  dsimp only
  split_ifs <;> ring_nf

/-- The portfolio-limit result is never negative: every branch returns 0 or a
`max 0 _`. -/
theorem checkPortfolioLimits_nonneg (params : RiskParameters) (size : ℚ)
    (account : AlpacaAccount) (positions : List AlpacaPosition)
    (currentPrice : ℚ) :
    0 ≤ checkPortfolioLimits params size account positions currentPrice := by
  unfold checkPortfolioLimits
  split_ifs <;> simp [le_max_left]

/-- Arithmetic core of the buying-power bound: given a size whose required
capital already fits the buying power, the portfolio-risk clamp followed by
the final `max 0` keeps the required capital within buying power. -/
theorem riskClampExprBound (pv price bp maxPR cr a1 : ℚ) (hp : 0 < price)
    (hbp : 0 ≤ bp) (ha1 : a1 * price ≤ bp) :
    (max 0 (if cr + a1 * price / pv > maxPR then
        if maxPR - cr ≤ 0 then 0 else (maxPR - cr) * pv / price
      else a1)) * price ≤ bp := by
  split_ifs with h3 h4
  · simpa using hbp
  · push_neg at h4
    rcases le_or_lt ((maxPR - cr) * pv / price) 0 with hx | hx
    · rw [max_eq_left hx]
      simpa using hbp
    · rw [max_eq_right hx.le]
      have hpv : 0 < pv := by
        by_contra hpv
        push_neg at hpv
        have hnum : (maxPR - cr) * pv ≤ 0 :=
          mul_nonpos_of_nonneg_of_nonpos (by linarith) hpv
        have : (maxPR - cr) * pv / price ≤ 0 := div_nonpos_of_nonpos_of_nonneg hnum hp.le
        linarith
      have h5 : maxPR - cr < a1 * price / pv := by linarith
      have h6 : (maxPR - cr) * pv < a1 * price := (lt_div_iff₀ hpv).mp h5
      calc (maxPR - cr) * pv / price * price
          = (maxPR - cr) * pv := div_mul_cancel₀ _ hp.ne'
        _ ≤ a1 * price := h6.le
        _ ≤ bp := ha1
  · rcases le_or_lt a1 0 with hx | hx
    · rw [max_eq_left hx]
      simpa using hbp
    · rw [max_eq_right hx.le]
      exact ha1

/-- Buying-power safety of the portfolio clamp: with a positive price and
non-negative buying power, the clamped size never requires more capital than
the buying power. -/
theorem checkPortfolioLimits_mul_price_le (params : RiskParameters) (size : ℚ)
    (account : AlpacaAccount) (positions : List AlpacaPosition)
    (currentPrice : ℚ) (hp : 0 < currentPrice)
    (hbp : 0 ≤ account.buyingPower) :
    checkPortfolioLimits params size account positions currentPrice * currentPrice ≤
      account.buyingPower := by
  unfold checkPortfolioLimits
  by_cases h1 : positions.length ≥ params.maxPositionCount
  · rw [if_pos h1]
    simpa using hbp
  · rw [if_neg h1]
    dsimp only
    apply riskClampExprBound account.portfolioValue currentPrice
      account.buyingPower params.maxPortfolioRisk
      (calculateCurrentPortfolioRisk account positions) _ hp hbp
    split_ifs with h2
    · rw [div_mul_cancel₀ _ hp.ne']
    · push_neg at h2
      exact h2

/-- C2: for every call to `assessTrade` with positive price and non-negative
buying power, the returned positionSize satisfies
positionSize × currentPrice ≤ buyingPower: the buying-power clamp shrinks the
size to buyingPower/price, and the later portfolio-risk clamp and the final
floor can only shrink it further. -/
theorem assessTrade_positionSize_le_buyingPower (params : RiskParameters)
    (signal : QPPFSignal) (uwSignals : OptionsFlowSignals)
    (account : AlpacaAccount) (positions : List AlpacaPosition)
    (currentPrice : ℚ) (hour minute : ℕ) (hp : 0 < currentPrice)
    (hbp : 0 ≤ account.buyingPower) :
    ((assessTrade params signal uwSignals account positions currentPrice
        hour minute).positionSize : ℚ) * currentPrice ≤ account.buyingPower := by
  have hfield : (assessTrade params signal uwSignals account positions currentPrice
      hour minute).positionSize =
      max 0 ⌊checkPortfolioLimits params
        (applyRiskMultipliers (calculateBasePositionSize params
          account.portfolioValue signal.confidence currentPrice) signal uwSignals).1
        account positions currentPrice⌋ := rfl
  rw [hfield]
  set pls := checkPortfolioLimits params
    (applyRiskMultipliers (calculateBasePositionSize params
      account.portfolioValue signal.confidence currentPrice) signal uwSignals).1
    account positions currentPrice with hpls
  have hnn : 0 ≤ pls := checkPortfolioLimits_nonneg _ _ _ _ _
  have hmax : (max 0 ⌊pls⌋ : ℤ) = ⌊pls⌋ := max_eq_right (Int.floor_nonneg.mpr hnn)
  rw [hmax]
  have hfl : ((⌊pls⌋ : ℤ) : ℚ) ≤ pls := Int.floor_le pls
  calc ((⌊pls⌋ : ℤ) : ℚ) * currentPrice ≤ pls * currentPrice :=
        mul_le_mul_of_nonneg_right hfl hp.le
    _ ≤ account.buyingPower :=
        checkPortfolioLimits_mul_price_le _ _ _ _ _ hp hbp

/-- Witness for C2: at price 100 with $100,000 buying power, the concrete
low-confidence assessment's size times price stays within buying power. -/
theorem assessTrade_positionSize_le_buyingPower_witness :
    ((assessTrade defaultRiskParameters sigLowConfidence uwNeutral acctSample
        [] 100 12 0).positionSize : ℚ) * 100 ≤ acctSample.buyingPower :=
  assessTrade_positionSize_le_buyingPower defaultRiskParameters sigLowConfidence
    uwNeutral acctSample [] 100 12 0 (by norm_num) (by norm_num [acctSample])

/-- Counterexample for C1: with confidence 0.55 against the default minimum
0.60, a $100,000 account, no open positions and price 100, the assessment is
`reject` yet its positionSize is 6, not 0 — the returned size is computed
independently of the recommendation. -/
theorem assessTrade_reject_with_positive_size_cex :
    (assessTrade defaultRiskParameters sigLowConfidence uwNeutral acctSample
        [] 100 12 0).recommendation = Recommendation.reject ∧
      (assessTrade defaultRiskParameters sigLowConfidence uwNeutral acctSample
        [] 100 12 0).positionSize = 6 := by
  constructor <;>
    norm_num [assessTrade, defaultRiskParameters, sigLowConfidence, uwNeutral,
      acctSample, calculateBasePositionSize, applyRiskMultipliers,
      checkPortfolioLimits, calculateCurrentPortfolioRisk, calculateRiskScore,
      getMarketTimingRisk]

/-- C1 (amended): whenever the signal confidence is below the configured
minimum, `assessTrade` returns recommendation `reject` and
`shouldExecuteTrade` is false on the assessment — so no order is submitted —
but the reject assessment's positionSize is not forced to 0; in the scenario
confidence = 0.55, minConfidence = 0.60 the recommendation is `reject`. -/
theorem assessTrade_reject_below_minConfidence (params : RiskParameters)
    (signal : QPPFSignal) (uwSignals : OptionsFlowSignals)
    (account : AlpacaAccount) (positions : List AlpacaPosition)
    (currentPrice : ℚ) (hour minute : ℕ)
    (hconf : signal.confidence < params.minConfidence) :
    (assessTrade params signal uwSignals account positions currentPrice
        hour minute).recommendation = Recommendation.reject ∧
      shouldExecuteTrade (assessTrade params signal uwSignals account positions
        currentPrice hour minute) = false := by
  have hrec : (assessTrade params signal uwSignals account positions currentPrice
      hour minute).recommendation = Recommendation.reject := by
    show (if signal.confidence < params.minConfidence then Recommendation.reject
      else if _ > params.maxRiskScore then Recommendation.reject
      else if _ < _ * 0.5 then Recommendation.reduce
      else Recommendation.execute) = Recommendation.reject
    rw [if_pos hconf]
  refine ⟨hrec, ?_⟩
  unfold shouldExecuteTrade
  rw [hrec]
  simp

/-- Witness for the amended C1: the concrete 0.55-confidence scenario against
the default parameters rejects and fails the execution gate. -/
theorem assessTrade_reject_below_minConfidence_witness :
    (assessTrade defaultRiskParameters sigLowConfidence uwNeutral acctSample
        [] 100 12 0).recommendation = Recommendation.reject ∧
      shouldExecuteTrade (assessTrade defaultRiskParameters sigLowConfidence
        uwNeutral acctSample [] 100 12 0) = false :=
  assessTrade_reject_below_minConfidence defaultRiskParameters sigLowConfidence
    uwNeutral acctSample [] 100 12 0
    (by norm_num [sigLowConfidence, defaultRiskParameters])

/-- The spot profiles actually built by `calculateGEXProfile` satisfy the
strict spot-level ordering assumed by the Zero-Gamma-Level bracketing
theorem: for a positive current spot the 41 sample levels strictly
increase. -/
theorem calculateGEXProfile_sorted_spots (F : RealFuns) (C : GEXCalculator)
    (contracts : List OptionContract) (currentSpot nowMs : ℚ)
    (hspot : 0 < currentSpot) :
    List.Chain' (fun p q : ℚ × ℚ => p.1 < q.1)
      (calculateGEXProfile F C contracts currentSpot nowMs) := by
  unfold calculateGEXProfile
  dsimp only
  refine List.chain'_map_of_chain' _ ?_
    ((List.chain'_range_succ (fun a b : ℕ => a < b) 40).mpr fun m _ => Nat.lt_succ_self m)
  intro a b hab
  dsimp only
  have hd : 0 < currentSpot * 1.2 - currentSpot * 0.8 := by nlinarith
  have hba : (a : ℚ) < (b : ℚ) := by exact_mod_cast hab
  rw [add_lt_add_iff_left, div_lt_div_iff₀ (by norm_num) (by norm_num)]
  nlinarith [mul_pos hd (sub_pos.mpr hba)]
